import Mathlib

/-!
Verification of the Clam-Companion chat backend against its specification.

The development shallowly embeds the parts of the code the claims are about:

* `src/routes/chat.js` (the express-validator / mongoose version, which the
  claim line numbers point into): the POST `/chat` turn handler, the cached
  GET `/chat/:conversationId` handler, the GET `/chat` list handler and the
  DELETE `/chat/:conversationId` handler.
* the Conversation mongoose schema (`userId`, `goal`, `messages`
  (`role`/`content`/`timestamp`), `createdAt` — note: no `updatedAt` field
  and no `timestamps` option).
* the cache middleware (`cacheMiddleware`, `invalidateCache`) built on
  node-cache: keys are `"__express__" + req.originalUrl`, `res.json` is
  overridden to store every body it sends, and `invalidateCache(pattern)`
  is a middleware factory returning a `(req, res, next)` handler.
* `src/server/server.js`: the in-memory `/api/chat` handler that maintains
  the per-user `conversationCount`.
* the three provider adapters (`generateAnthropicResponse`,
  `generateOpenAIResponse`, `calmCompanionFlow`), embedded as
  history-state transformers so that any mutation of the supplied history
  would be visible in the returned state.

Machine timestamps and ids are modelled as `Nat` ticks; external API calls
are modelled as oracle parameters; JavaScript falsiness of `0` and `""` is
modelled explicitly where the code relies on it.
-/

/-- A JSON-like value, used to model the bodies produced by `res.json`. -/
inductive JVal where
  | s (v : String)
  | n (v : Int)
  | b (v : Bool)
  | null
  | arr (vs : List JVal)
  | obj (fields : List (String × JVal))

/-- Look a key up in a JSON object; `none` for non-objects or absent keys. -/
def JVal.lookup : JVal → String → Option JVal
  | .obj fields, k => (fields.find? (fun kv => kv.1 = k)).map (·.2)
  | _, _ => none

/-- An HTTP response as the express handlers produce it: a status code and
the JSON body passed to `res.json`. -/
structure HttpResponse where
  status : Nat
  body : JVal

/-! ## Cache layer (`src/middleware/cache.js`)

The node-cache store is modelled as an association list from keys to the
cached JSON bodies.  TTL expiry is not modelled: every scenario in the
claims happens inside one entry's time-to-live. -/

/-- The in-memory cache state: key ↦ cached response body. -/
abbrev Cache := List (String × JVal)

/-- `cache.get(key)`. -/
def cacheGet (key : String) (c : Cache) : Option JVal :=
  (c.find? (fun kv => kv.1 = key)).map (·.2)

/-- `cache.set(key, body, ttl)` (the ttl argument is dropped, see above). -/
def cacheSet (key : String) (body : JVal) (c : Cache) : Cache :=
  (key, body) :: c.filter (fun kv => kv.1 ≠ key)

/-- Auxiliary: does `pat` occur as a contiguous run inside `l`? -/
def charsInclude (pat : List Char) : List Char → Bool
  | [] => pat.isEmpty
  | c :: rest => pat.isPrefixOf (c :: rest) || charsInclude pat rest

/-- `hay.includes(pat)` on strings. -/
def strIncludes (hay pat : String) : Bool :=
  charsInclude pat.toList hay.toList

/-- `invalidateCache(pattern)` from `src/middleware/cache.js` is a
*middleware factory*: it returns a `(req, res, next)` handler which, when
the middleware is actually run, deletes every cache key containing
`pattern`.  The returned function is modelled as the cache transformation
that running the middleware would perform. -/
def invalidateCache (pattern : String) : Cache → Cache :=
  fun c => c.filter (fun kv => ¬ strIncludes kv.1 pattern)

/-- `cacheMiddleware(duration)` wrapping a GET handler: the key is derived
from the request URL alone (`"__express__" + req.originalUrl`); on a hit
the cached body is replayed via `res.json` (status 200); on a miss the
handler runs and the overridden `res.json` stores whatever body the
handler sends — error bodies included. -/
def cachedGet (url : String) (handler : Unit → HttpResponse) (c : Cache) :
    HttpResponse × Cache :=
  let key := "__express__" ++ url
  match cacheGet key c with
  | some body => ({ status := 200, body := body }, c)
  | none =>
      let r := handler ()
      (r, cacheSet key r.body c)

/-! ## Conversation data model (mongoose schema, `models/Conversation.js`)

The schema declares `userId`, `goal`, `messages : [{role, content,
timestamp}]` and `createdAt`.  It declares neither an `updatedAt` path nor
the `timestamps` schema option, so stored conversations carry no
last-update field.  Mongoose gives each message subdocument an `_id`,
modelled here as a `Nat`. -/

/-- One message subdocument. -/
structure Message where
  id : Nat
  role : String
  content : String
  timestamp : Nat
deriving Repr, DecidableEq

/-- One conversation document. -/
structure Conversation where
  id : String
  userId : String
  goal : String
  messages : List Message
  createdAt : Nat
deriving Repr, DecidableEq

/-- Serialize a message the way `res.json` renders the subdocument. -/
def Message.toJson (m : Message) : JVal :=
  .obj [("role", .s m.role), ("content", .s m.content),
        ("timestamp", .n m.timestamp)]

/-- 24 hex characters — the `/^[0-9a-fA-F]{24}$/` check and
express-validator's `isMongoId`. -/
def isMongoId (s : String) : Bool :=
  s.length = 24 && s.toList.all (fun ch =>
    (('0' ≤ ch && ch ≤ '9') || ('a' ≤ ch && ch ≤ 'f') || ('A' ≤ ch && ch ≤ 'F')))

/-- A fresh 24-hex document id for a newly created conversation,
generated from the model's id counter. -/
def freshConvId (k : Nat) : String :=
  let digits := String.mk (Nat.toDigits 16 k)
  String.mk (List.replicate (24 - digits.length) '0') ++ digits

/-! ## POST `/chat` (src/routes/chat.js) -/

/-- The request body of POST `/chat`.  `conversationId` is `none` when the
field is absent from the JSON body. -/
structure ChatBody where
  message : String
  goal : String
  conversationId : Option String
deriving Repr, DecidableEq

/-- The whitespace-stripping `trim()` sanitizer, computed over the
character list so that concrete inputs evaluate. -/
def jsTrim (s : String) : String :=
  String.mk
    (((s.toList.dropWhile Char.isWhitespace).reverse.dropWhile Char.isWhitespace).reverse)

/-- The `isIn` list of the `goal` validator. -/
def goalAllowed (g : String) : Bool :=
  g = "emotional-support" || g = "stress-relief" || g = "polite-greetings" ||
  g = "kind-disagreement" || g = "respectful-questions"

/-- The `validateChatMessage` chain: `message` is trimmed and must be 1..1000
characters, `goal` is trimmed and must be one of the five listed values,
`conversationId` is optional but must be a Mongo id when present. -/
def validateChatMessage (b : ChatBody) : Bool :=
  (1 ≤ (jsTrim b.message).length && (jsTrim b.message).length ≤ 1000) &&
  goalAllowed (jsTrim b.goal) &&
  (match b.conversationId with
   | none => true
   | some cid => isMongoId cid)

/-- The `withMessage` texts of the validators that failed, as
`errors.array()` reports them. -/
def validationDetails (b : ChatBody) : List JVal :=
  (if 1 ≤ (jsTrim b.message).length && (jsTrim b.message).length ≤ 1000 then []
   else [JVal.s "Message must be between 1 and 1000 characters"]) ++
  (if goalAllowed (jsTrim b.goal) then [] else [JVal.s "Invalid goal specified"]) ++
  (match b.conversationId with
   | none => []
   | some cid => if isMongoId cid then [] else [JVal.s "Invalid conversation ID format"])

/-- The canned response map of `generateAIResponse` in src/routes/chat.js. -/
def chatResponses (goal : String) : Option String :=
  if goal = "emotional-support" then
    some "I understand how you\x27re feeling. It\x27s completely normal to experience these emotions. Remember that you\x27re not alone, and it\x27s okay to feel this way."
  else if goal = "stress-relief" then
    some "Let\x27s take a moment to breathe together. Try taking a deep breath in for 4 counts, hold for 4, and exhale for 4. This simple technique can help reduce stress."
  else if goal = "polite-greetings" then
    some "Hello! It\x27s wonderful to meet you. I hope you\x27re having a great day. How can I assist you today?"
  else if goal = "kind-disagreement" then
    some "I appreciate your perspective, and I can see where you\x27re coming from. I have a slightly different view on this, but I respect your opinion."
  else if goal = "respectful-questions" then
    some "That\x27s an interesting point. Could you help me understand more about your perspective on this? I\x27d love to learn from your experience."
  else none

/-- `generateAIResponse(message, goal, conversationHistory)` from
src/routes/chat.js: a local placeholder that looks the goal up in the
canned map and falls back to a default line (`responses[goal] || '...'`).
It consults no external provider and cannot fail; `message` and
`conversationHistory` are accepted but unused, exactly as in the source. -/
def generateAIResponse (message goal : String) (conversationHistory : List Message) :
    String :=
  (chatResponses goal).getD "I\x27m here to help you. How can I assist you today?"

/-- The 404 body shared by the chat routes. -/
def notFoundBody : JVal :=
  .obj [("error", .s "Conversation not found"), ("code", .s "CONVERSATION_NOT_FOUND")]

/-- The 400 body for malformed conversation ids. -/
def invalidIdBody : JVal :=
  .obj [("error", .s "Invalid conversation ID format"), ("code", .s "INVALID_ID")]

/-- The application state threaded through the mongoose routes: the
conversation store (documents in natural order), the shared node-cache,
the clock and the id counter. -/
structure AppState where
  store : List Conversation
  cache : Cache
  now : Nat
  nextId : Nat

/-- Overwrite the first element satisfying `p` — a mongoose `save()` of an
existing document rewrites the one document carrying its `_id`. -/
def replaceFirst (p : Conversation → Bool) (x : Conversation) :
    List Conversation → List Conversation
  | [] => []
  | y :: ys => if p y then x :: ys else y :: replaceFirst p x ys

/-- The tail of the POST `/chat` handler after a conversation has been
found (`found = some conv`) or is to be created (`found = none`): push the
user message, generate the placeholder response, push the assistant
message, save, then call `invalidateCache` — the source calls the
middleware factory and drops the returned handler, so the cache is not
modified — and answer with the response/conversationId/messageId/timestamp
body. -/
def finishTurn (st : AppState) (userId goal message : String)
    (found : Option Conversation) : HttpResponse × AppState :=
  let conversation : Conversation :=
    match found with
    | some c => c
    | none => { id := freshConvId st.nextId, userId := userId, goal := goal,
                messages := [], createdAt := st.now }
  let userMessage : Message :=
    { id := st.nextId + 1, role := "user", content := message, timestamp := st.now }
  let withUser := conversation.messages ++ [userMessage]
  let aiText := generateAIResponse message goal withUser
  let aiMessage : Message :=
    { id := st.nextId + 2, role := "assistant", content := aiText, timestamp := st.now }
  let saved : Conversation := { conversation with messages := withUser ++ [aiMessage] }
  let store' : List Conversation :=
    match found with
    | some _ =>
        replaceFirst (fun c => c.id = conversation.id && c.userId = userId) saved st.store
    | none => st.store ++ [saved]
  let _droppedMiddleware := invalidateCache ("conversations_" ++ userId)
  ({ status := 200,
     body := .obj [("response", .s aiText), ("conversationId", .s saved.id),
                   ("messageId", .n aiMessage.id), ("timestamp", .n aiMessage.timestamp)] },
   { st with store := store', nextId := st.nextId + 3 })

/-- The find-or-create step of the POST `/chat` handler: when a
conversation id is supplied (`if (conversationId)` — JS truthiness, so
the empty string counts as absent) the conversation is looked up scoped to
the caller, answering 404 when absent; otherwise the turn runs against a
fresh conversation. -/
def resolveTurn (st : AppState) (userId goal message : String) :
    Option String → HttpResponse × AppState
  | some cid =>
      if cid = "" then finishTurn st userId goal message none
      else
        match st.store.find? (fun c => c.id = cid && c.userId = userId) with
        | none => ({ status := 404, body := notFoundBody }, st)
        | some conversation => finishTurn st userId goal message (some conversation)
  | none => finishTurn st userId goal message none

/-- The POST `/chat` handler (authenticated caller `userId`). -/
def postChat (st : AppState) (userId : String) (b : ChatBody) :
    HttpResponse × AppState :=
  if validateChatMessage b = false then
    ({ status := 400,
       body := .obj [("error", .s "Validation failed"),
                     ("details", .arr (validationDetails b)),
                     ("code", .s "VALIDATION_ERROR")] }, st)
  else
    let message := jsTrim b.message
    let goal := jsTrim b.goal
    resolveTurn st userId goal message b.conversationId

/-! ## GET `/chat/:conversationId` and DELETE `/chat/:conversationId` -/

/-- The 200 payload of the detail route.  The handler also asks for
`conversation.updatedAt`, but the schema declares no `updatedAt` path, so
that property is `undefined` and JSON serialization drops the key. -/
def conversationJson (c : Conversation) : JVal :=
  .obj [("conversation", .obj
    [("id", .s c.id), ("goal", .s c.goal),
     ("messages", .arr (c.messages.map Message.toJson)),
     ("createdAt", .n c.createdAt)])]

/-- The inner GET `/chat/:conversationId` handler (behind the cache). -/
def getConversationHandler (store : List Conversation) (userId cid : String) :
    HttpResponse :=
  if isMongoId cid = false then { status := 400, body := invalidIdBody }
  else
    match store.find? (fun c => c.id = cid && c.userId = userId) with
    | none => { status := 404, body := notFoundBody }
    | some conversation => { status := 200, body := conversationJson conversation }

/-- The full GET `/chat/:conversationId` route: `auth` (caller identity is
`userId`), then `cacheMiddleware(300)` keyed on the URL alone, then the
handler above. -/
def getConversationRoute (store : List Conversation) (userId cid : String)
    (cache : Cache) : HttpResponse × Cache :=
  cachedGet ("/api/chat/" ++ cid)
    (fun _ => getConversationHandler store userId cid) cache

/-- The DELETE `/chat/:conversationId` handler: `findOneAndDelete` scoped to
the caller, then the same dropped `invalidateCache` factory call. -/
def deleteConversationRoute (st : AppState) (userId cid : String) :
    HttpResponse × AppState :=
  if isMongoId cid = false then ({ status := 400, body := invalidIdBody }, st)
  else
    match st.store.find? (fun c => c.id = cid && c.userId = userId) with
    | none => ({ status := 404, body := notFoundBody }, st)
    | some _ =>
        let store' := st.store.eraseP (fun c => c.id = cid && c.userId = userId)
        let _droppedMiddleware := invalidateCache ("conversations_" ++ userId)
        ({ status := 200,
           body := .obj [("message", .s "Conversation deleted successfully"),
                         ("conversationId", .s cid)] },
         { st with store := store' })

/-! ## GET `/chat` — conversation list with pagination -/

/-- `parseInt(x) || d`: `none` stands for an absent or unparseable
(`NaN`) query value; a parsed `0` is falsy in JavaScript and is replaced
by the default as well. -/
def jsParseIntOr (raw : Option Int) (d : Int) : Int :=
  match raw with
  | some v => if v = 0 then d else v
  | none => d

/-- One item of the list payload: `id`, `goal`, `messageCount`,
`lastMessage`, `createdAt` — and deliberately no full message history.
(The route also writes `updatedAt: conv.updatedAt`, which is `undefined`
for every stored document and is dropped by JSON serialization.) -/
structure ConvSummary where
  id : String
  goal : String
  messageCount : Nat
  lastMessage : Option Message
  createdAt : Nat
deriving Repr, DecidableEq

/-- The `pagination` object of the list payload. -/
structure Pagination where
  page : Int
  limit : Int
  total : Nat
  totalPages : Int
  hasNext : Bool
  hasPrev : Bool
deriving Repr, DecidableEq

/-- The 200 payload of GET `/chat`. -/
structure ListOk where
  conversations : List ConvSummary
  pagination : Pagination
deriving Repr, DecidableEq

/-- The per-conversation transformation of the list route:
`lastMessage` is `messages[messages.length - 1]` when non-empty, else
`null`. -/
def summarize (c : Conversation) : ConvSummary :=
  { id := c.id, goal := c.goal, messageCount := c.messages.length,
    lastMessage := c.messages.getLast?, createdAt := c.createdAt }

/-- The GET `/chat` handler.  `none` is the 400 `INVALID_PAGINATION`
rejection.  `find({userId}).sort({updatedAt: -1})`: the schema stores no
`updatedAt` path, so every document ties on the sort key and the query
yields the documents in store order; `skip`/`limit` then slice that
order. -/
def listConversations (store : List Conversation) (userId : String)
    (pageRaw limitRaw : Option Int) : Option ListOk :=
  let page := jsParseIntOr pageRaw 1
  let limit := jsParseIntOr limitRaw 10
  let skip := (page - 1) * limit
  if page < 1 || limit < 1 || limit > 50 then none
  else
    let userConvs := store.filter (fun c => c.userId = userId)
    let convs := (userConvs.drop skip.toNat).take limit.toNat
    let total := userConvs.length
    some { conversations := convs.map summarize,
           pagination :=
             { page := page, limit := limit, total := total,
               totalPages := ((total : Int) + limit - 1) / limit,
               hasNext := decide (page * limit < (total : Int)),
               hasPrev := decide (1 < page) } }

/-- The specification's notion of a conversation's last-update instant,
reconstructed from a summary: the timestamp of the last message, or the
creation instant for an empty conversation. -/
def specLastUpdate (s : ConvSummary) : Nat :=
  match s.lastMessage with
  | some m => m.timestamp
  | none => s.createdAt

/-- Is a list of summaries ordered by last-update descending? -/
def sortedByLastUpdateDesc : List ConvSummary → Bool
  | [] => true
  | [_] => true
  | a :: b :: rest =>
      (specLastUpdate b ≤ specLastUpdate a) && sortedByLastUpdateDesc (b :: rest)

/-! ## The in-memory server (`src/server/server.js`)

This earlier server variant keeps `users` and `conversations` in process
arrays and is the code that maintains the per-user `conversationCount`
(initialized to 0 on registration, incremented in the `/api/chat` handler
when no stored conversation matches the supplied id). -/

/-- A user record of the in-memory server (only the fields the modelled
handlers read or write). -/
structure SUser where
  id : String
  email : String
  conversationCount : Nat
deriving Repr, DecidableEq

/-- A message of the in-memory server (it also stores a tone). -/
structure SMsg where
  role : String
  content : String
  timestamp : Nat
  tone : String
deriving Repr, DecidableEq

/-- A conversation of the in-memory server. -/
structure SConv where
  id : String
  userId : String
  goal : String
  messages : List SMsg
  createdAt : Nat
deriving Repr, DecidableEq

/-- The in-memory server state. -/
structure SState where
  users : List SUser
  conversations : List SConv
  now : Nat
deriving Repr, DecidableEq

/-- The body of POST `/api/chat` on the in-memory server; `none` models an
absent field, and JavaScript treats an empty string like an absent one in
the `!message || !goal` check. -/
structure SChatBody where
  message : Option String
  goal : Option String
  tone : Option String
  conversationId : Option String
deriving Repr, DecidableEq

/-- JS truthiness for an optional string: present and non-empty. -/
def jsTruthyStr : Option String → Bool
  | none => false
  | some s => !s.isEmpty

/-- `getGoalBasedResponses(goal, tone)` of src/server/server.js (the
response pools; unknown goals fall back to the emotional-support pool). -/
def getGoalBasedResponses (goal : String) : List String :=
  if goal = "polite-greetings" then
    ["Hello! It\x27s wonderful to meet you. How are you doing today?",
     "Hi there! I hope you\x27re having a lovely day. What brings you here?",
     "Greetings! I\x27m so glad you stopped by. How can I help you today?",
     "Hello! Welcome to our conversation. I\x27m here to chat and support you."]
  else if goal = "kind-disagreement" then
    ["I understand your perspective, and I appreciate you sharing it with me.",
     "That\x27s an interesting point of view. Let me think about that for a moment.",
     "I see where you\x27re coming from, and I respect your opinion on this.",
     "Thank you for sharing that. It\x27s important to consider different viewpoints."]
  else if goal = "respectful-questions" then
    ["I\x27d love to learn more about that. Could you tell me a bit more?",
     "That sounds fascinating! Would you mind sharing more details?",
     "I\x27m curious about your experience. What was that like for you?",
     "Thank you for sharing. How did that make you feel?"]
  else if goal = "stress-relief" then
    ["Let\x27s take a moment to breathe together. Inhale slowly... and exhale.",
     "Remember, it\x27s okay to take breaks and be kind to yourself.",
     "You\x27re doing the best you can, and that\x27s enough.",
     "Let\x27s focus on one thing at a time. What feels most important right now?"]
  else
    ["I hear you, and I want you to know that your feelings are valid.",
     "It sounds like you\x27re going through a lot right now. I\x27m here for you.",
     "You\x27re not alone in this. I\x27m here to listen and support you.",
     "Thank you for trusting me with this. You\x27re showing real strength."]

/-- `generateContextualResponse` of src/server/server.js: pick a pooled
response (`Math.random()` is modelled by the `rand` index), prepend the
greeting when the history holds exactly the one fresh user message, and
append the tone-specific tail. -/
def serverGenerateAIResponse (message goal tone : String)
    (conversationHistory : List SMsg) (rand : Nat) : String × String :=
  let responses := getGoalBasedResponses goal
  let base := (responses.get? (rand % responses.length)).getD ""
  let isFirstMessage := conversationHistory.length = 1
  let withHello :=
    if isFirstMessage then
      "Hello! I\x27m here to help you with " ++ goal.replace "-" " " ++ ". " ++ base
    else base
  let withTone :=
    if tone = "excited" then withHello ++ " I can feel your enthusiasm! 🌟"
    else if tone = "stressed" then
      withHello ++ " Remember to take deep breaths. You are doing great! 💚"
    else withHello
  (withTone, if tone = "" then "neutral" else tone)

/-- Has the in-memory `/api/chat` handler reached its creation branch?
True when validation passes, the caller exists in `users`, and
`conversations.find(c => c.id === conversationId)` (no ownership filter)
finds nothing. -/
def chatCreates (st : SState) (callerId : String) (b : SChatBody) : Bool :=
  jsTruthyStr b.message && jsTruthyStr b.goal &&
  (st.users.find? (fun u => u.id = callerId)).isSome &&
  (match b.conversationId with
   | none => true
   | some cid => (st.conversations.find? (fun c => c.id = cid)).isNone)

/-- POST `/api/chat` of src/server/server.js.  Returns the new state (the
response body is `{response, conversationId, tone}`; only the state
matters for the counter claim, but the handler is embedded whole). -/
def postApiChat (st : SState) (callerId : String) (b : SChatBody) (rand : Nat) :
    HttpResponse × SState :=
  if !(jsTruthyStr b.message && jsTruthyStr b.goal) then
    ({ status := 400,
       body := .obj [("error", .s "Message and goal are required"),
                     ("code", .s "VALIDATION_ERROR")] }, st)
  else
    match st.users.find? (fun u => u.id = callerId) with
    | none =>
        ({ status := 404,
           body := .obj [("error", .s "User not found"),
                         ("code", .s "USER_NOT_FOUND")] }, st)
    | some _user =>
        let message := b.message.getD ""
        let goal := b.goal.getD ""
        let tone := b.tone.getD ""
        let foundConv : Option SConv :=
          match b.conversationId with
          | none => none
          | some cid => st.conversations.find? (fun c => c.id = cid)
        let created := foundConv.isNone
        let conversation : SConv :=
          match foundConv with
          | some c => c
          | none => { id := "t" ++ toString st.now, userId := callerId, goal := goal,
                      messages := [], createdAt := st.now }
        let users' :=
          if created then
            st.users.map (fun u =>
              if u.id = callerId then { u with conversationCount := u.conversationCount + 1 }
              else u)
          else st.users
        let userMessage : SMsg :=
          { role := "user", content := message, timestamp := st.now,
            tone := if tone = "" then "neutral" else tone }
        let withUser := conversation.messages ++ [userMessage]
        let ai := serverGenerateAIResponse message goal tone withUser rand
        let aiMessage : SMsg :=
          { role := "assistant", content := ai.1, timestamp := st.now, tone := ai.2 }
        let saved := { conversation with messages := withUser ++ [aiMessage] }
        let conversations' :=
          if created then st.conversations ++ [saved]
          else st.conversations.map (fun c => if c.id = conversation.id then saved else c)
        ({ status := 200,
           body := .obj [("response", .s ai.1), ("conversationId", .s saved.id),
                         ("tone", .s ai.2)] },
         { st with users := users', conversations := conversations' })

/-- POST `/api/register` of src/server/server.js, as far as the user list
is concerned: reject a duplicate email, else append a new user whose
`conversationCount` starts at 0.  (Email/password validation failures also
leave the state unchanged and are folded into the `valid` flag.) -/
def registerUser (st : SState) (newId email : String) (valid : Bool) :
    SState :=
  if !valid then st
  else if (st.users.find? (fun u => u.email = email)).isSome then st
  else { st with users := st.users ++ [{ id := newId, email := email, conversationCount := 0 }] }

/-- The conversation counter of user `uid` as stored in a user list. -/
def lookupCount (users : List SUser) (uid : String) : Option Nat :=
  (users.find? (fun u => u.id = uid)).map (·.conversationCount)

/-! ## Provider adapters

Each adapter is embedded as a history-state transformer: it receives the
conversation history and returns, next to its `{response, tone}` result,
the list the caller's history variable holds after the call, so that any
mutation the source performed would be visible.  The external API call is
an oracle parameter `api` from the assembled prompt to the provider's
text. -/

/-- A history entry as the adapters consume it. -/
structure PMsg where
  role : String
  content : String
deriving Repr, DecidableEq

/-- The shared prompt template of the three adapters (goal, tone, language
and the rendered history are interpolated into one instruction block). -/
def adapterPrompt (message goal tone : String) (conversationHistory : List PMsg)
    (language : String) : String :=
  "You are Calm Companion, a friendly and supportive AI assistant.\n" ++
  "Your goal is to help the user with " ++ goal ++ ".\n" ++
  "The user\x27s current tone is " ++ tone ++ ".\n" ++
  "Please respond in a way that is consistent with this goal and tone.\n" ++
  "The user is communicating in " ++ language ++ ", so please respond in " ++
  language ++ ".\n\nConversation History:\n" ++
  String.intercalate "\n"
    (conversationHistory.map (fun msg => msg.role ++ ": " ++ msg.content)) ++
  "\n\nUser\x27s message: \"" ++ message ++ "\"\n\nYour response:\n"

/-- `generateAnthropicResponse` (src/server/anthropic.js): render the
prompt (`history.map(...).join('\n')` — both non-mutating), call the
completions endpoint, return `{response, tone: 'generated_tone'}`. -/
def generateAnthropicResponse (api : String → String) (message goal tone : String)
    (conversationHistory : List PMsg) (language : String) :
    (String × String) × List PMsg :=
  let prompt := adapterPrompt message goal tone conversationHistory language
  ((api prompt, "generated_tone"), conversationHistory)

/-- `generateOpenAIResponse` (the OpenAI adapter): same template, chat
completions endpoint. -/
def generateOpenAIResponse (api : String → String) (message goal tone : String)
    (conversationHistory : List PMsg) (language : String) :
    (String × String) × List PMsg :=
  let prompt := adapterPrompt message goal tone conversationHistory language
  ((api prompt, "generated_tone"), conversationHistory)

/-- `calmCompanionFlow` (src/server/gemini.js): same template, genkit
generate call. -/
def calmCompanionFlow (api : String → String) (message goal tone : String)
    (conversationHistory : List PMsg) (language : String) :
    (String × String) × List PMsg :=
  let prompt := adapterPrompt message goal tone conversationHistory language
  ((api prompt, "generated_tone"), conversationHistory)

/-! ## Shared concrete scenario data -/

/-- A well-formed 24-hex conversation id. -/
def cexConvId : String := "aaaaaaaaaaaaaaaaaaaaaaaa"

/-- A stored conversation of user `u1` holding one completed turn. -/
def cexConv : Conversation :=
  { id := cexConvId, userId := "u1", goal := "stress-relief",
    messages := [{ id := 0, role := "user", content := "hi", timestamp := 1 },
                 { id := 1, role := "assistant", content := "hello", timestamp := 2 }],
    createdAt := 0 }

/-- An application state holding just that conversation and an empty cache. -/
def cexState : AppState :=
  { store := [cexConv], cache := [], now := 10, nextId := 2 }

/-! ## Helper lemmas -/

theorem cacheGet_cacheSet_self (key : String) (v : JVal) (c : Cache) :
    cacheGet key (cacheSet key v c) = some v := by
  simp [cacheGet, cacheSet]

/-! ## Claim theorems -/

/-- C9: calling `generate` on any of the three provider adapters leaves the
supplied conversation history unchanged — the history the caller observes
after the call equals the list passed in, element for element. -/
theorem adapters_preserve_history (api : String → String)
    (message goal tone language : String) (conversationHistory : List PMsg) :
    (generateAnthropicResponse api message goal tone conversationHistory language).2
        = conversationHistory ∧
    (generateOpenAIResponse api message goal tone conversationHistory language).2
        = conversationHistory ∧
    (calmCompanionFlow api message goal tone conversationHistory language).2
        = conversationHistory :=
  ⟨rfl, rfl, rfl⟩

/-- C10: the cache key of the detail GET is derived from the request URL
alone and carries no user identity: whatever body a first authenticated
user's request leaves in (or finds in) the cache is exactly the body a
second user — any user, against any store state — is served for the same
URL within the entry's TTL. -/
theorem cache_hit_ignores_user_identity (u1 u2 cid : String)
    (store1 store2 : List Conversation) (cache : Cache) :
    ((getConversationRoute store2 u2 cid
        (getConversationRoute store1 u1 cid cache).2).1).body
      = ((getConversationRoute store1 u1 cid cache).1).body := by
  unfold getConversationRoute cachedGet
  cases h : cacheGet ("__express__" ++ ("/api/chat/" ++ cid)) cache with
  | some body => simp only [h]
  | none => simp only [h, cacheGet_cacheSet_self]

/-- C1 (counterexample): a valid authenticated POST `/chat` — in a system
whose registered-provider set is empty, so that "every registered provider
fails" holds vacuously — succeeds with HTTP 200, but its body carries no
`aiProvider` field at all, and the reply is the goal-keyed canned text,
not a fixed fallback message. -/
theorem chat_response_lacks_aiProvider_field :
    (postChat cexState "u1"
        { message := "I am feeling stressed today", goal := "emotional-support",
          conversationId := none }).1.status = 200 ∧
    (postChat cexState "u1"
        { message := "I am feeling stressed today", goal := "emotional-support",
          conversationId := none }).1.body.lookup "aiProvider" = none ∧
    (postChat cexState "u1"
        { message := "I am feeling stressed today", goal := "emotional-support",
          conversationId := none }).1.body.lookup "response" =
      some (.s "I understand how you\x27re feeling. It\x27s completely normal to experience these emotions. Remember that you\x27re not alone, and it\x27s okay to feel this way.") :=
  ⟨rfl, rfl, rfl⟩

/-- The POST body of the second turn on the stored conversation. -/
def cexTurnBody : ChatBody :=
  { message := "Thank you, that helped", goal := "stress-relief",
    conversationId := some cexConvId }

/-- GET `/chat/:id` by the owner with a cold cache. -/
def c2FirstGet : HttpResponse × Cache :=
  getConversationRoute cexState.store "u1" cexConvId cexState.cache

/-- POST `/chat` appending a turn to the same conversation. -/
def c2AfterPost : HttpResponse × AppState :=
  postChat { cexState with cache := c2FirstGet.2 } "u1" cexTurnBody

/-- The second GET `/chat/:id`, after the successful mutation. -/
def c2SecondGet : HttpResponse × Cache :=
  getConversationRoute c2AfterPost.2.store "u1" cexConvId c2AfterPost.2.cache

/-- C2: in the GET–POST–GET sequence on one conversation, the mutation
succeeds and grows the stored conversation to 4 messages, yet the second
GET replays the cached pre-mutation payload (2 messages): the POST
handler's `invalidateCache(\x60conversations_${userId}\x60)` call only
builds a middleware and never runs it, so no cache entry is removed — and
the live keys (`__express__` + URL) contain no `conversations_` prefix for
the pattern to match anyway. -/
theorem stale_cache_served_after_append :
    c2AfterPost.1.status = 200 ∧
    (c2AfterPost.2.store.find? (fun c => c.id = cexConvId)).map
        (fun c => c.messages.length) = some 4 ∧
    c2SecondGet.1.body = c2FirstGet.1.body ∧
    c2FirstGet.1.body = conversationJson cexConv :=
  ⟨rfl, rfl, rfl, rfl⟩

/-- GET by the owner, warming the URL-keyed cache. -/
def c4OwnerGet : HttpResponse × Cache :=
  getConversationRoute [cexConv] "u1" cexConvId []

/-- The same GET issued by a different authenticated user `u2`. -/
def c4IntruderGet : HttpResponse × Cache :=
  getConversationRoute [cexConv] "u2" cexConvId c4OwnerGet.2

/-- C4: with a cold cache a caller who does not own the conversation is
answered 404 `CONVERSATION_NOT_FOUND` exactly as for an absent id — but
once the owner has fetched the conversation, the identical GET by the
other user is served the owner's full conversation payload (HTTP 200) out
of the URL-keyed cache, so the route does hand one user's data to
another. -/
theorem cross_user_cache_leak_at_get :
    c4IntruderGet.1.status = 200 ∧
    c4IntruderGet.1.body = conversationJson cexConv ∧
    (getConversationRoute [cexConv] "u2" cexConvId []).1.status = 404 ∧
    (getConversationRoute [cexConv] "u2" cexConvId []).1.body = notFoundBody :=
  ⟨rfl, rfl, rfl, rfl⟩

/-- C6 (counterexample): a list request with `page=0` and `limit=0` — both
outside the claimed valid ranges — is not rejected: `parseInt(x) || d`
swallows the falsy 0, and the request is served under the substituted
defaults page 1, limit 10. -/
theorem page_zero_served_not_rejected :
    (listConversations [] "u1" (some 0) (some 0)).map
        (fun r => (r.pagination.page, r.pagination.limit)) = some (1, 10) :=
  rfl

/-- First stored conversation of `u1`: last activity at tick 1. -/
def c5ConvA : Conversation :=
  { id := "bbbbbbbbbbbbbbbbbbbbbbbb", userId := "u1", goal := "emotional-support",
    messages := [{ id := 0, role := "user", content := "x", timestamp := 1 }],
    createdAt := 1 }

/-- Second stored conversation of `u1`: last activity at tick 5. -/
def c5ConvB : Conversation :=
  { id := "cccccccccccccccccccccccc", userId := "u1", goal := "stress-relief",
    messages := [{ id := 1, role := "user", content := "y", timestamp := 5 }],
    createdAt := 4 }

/-- A store holding the two conversations in creation order. -/
def c5Store : List Conversation := [c5ConvA, c5ConvB]

/-- C5 (counterexample): the list route returns the two conversations in
store order `[A, B]` although B's last update (tick 5) is later than A's
(tick 1) — the `sort({updatedAt: -1})` key does not exist in the schema,
so the payload is not sorted by last-update descending. -/
theorem list_not_sorted_by_last_update :
    (listConversations c5Store "u1" none none).map
        (fun r => r.conversations.map ConvSummary.id)
      = some ["bbbbbbbbbbbbbbbbbbbbbbbb", "cccccccccccccccccccccccc"] ∧
    (listConversations c5Store "u1" none none).map
        (fun r => sortedByLastUpdateDesc r.conversations) = some false :=
  ⟨rfl, rfl⟩

/-- A POST body carrying a free-form custom goal. -/
def customGoalBody : ChatBody :=
  { message := "Hello there", goal := "gardening-tips", conversationId := none }

/-- C8 (counterexample): a valid message with the free-form custom goal
`gardening-tips` is rejected with 400 `VALIDATION_ERROR` and the state is
left unchanged — the `isIn` validator admits only the five enumerated
goals. -/
theorem custom_goal_rejected :
    (postChat cexState "u1" customGoalBody).1.status = 400 ∧
    (postChat cexState "u1" customGoalBody).1.body.lookup "code"
      = some (.s "VALIDATION_ERROR") ∧
    (postChat cexState "u1" customGoalBody).2 = cexState :=
  ⟨rfl, rfl, rfl⟩

/-- Total number of stored messages across a conversation store. -/
def messageTotal (store : List Conversation) : Nat :=
  (store.map (fun c => c.messages.length)).sum

theorem messageTotal_replaceFirst (p : Conversation → Bool) (x conv : Conversation)
    (l : List Conversation) (h : l.find? p = some conv) :
    messageTotal (replaceFirst p x l) + conv.messages.length
      = messageTotal l + x.messages.length := by
  induction l with
  | nil => simp [List.find?] at h
  | cons y ys ih =>
      by_cases hy : p y = true
      · rw [List.find?_cons_of_pos _ hy] at h
        injection h with h
        subst h
        simp [replaceFirst, hy, messageTotal]
        omega
      · rw [List.find?_cons_of_neg _ (by simpa using hy)] at h
        have := ih h
        simp only [replaceFirst, hy, if_neg, Bool.not_eq_true] at *
        simp [messageTotal] at this ⊢
        omega

/-- C8 (amended): POST `/chat` accepts only the five enumerated goal
values; any other goal string — free-form custom strings included — is
rejected with a 400 `VALIDATION_ERROR` and the state is left unchanged,
while each of the five enumerated goals together with a valid message is
accepted (HTTP 200 for a fresh conversation). -/
theorem only_enumerated_goals_accepted (st : AppState) (userId : String)
    (b : ChatBody) :
    (goalAllowed (jsTrim b.goal) = false →
      (postChat st userId b).1.status = 400 ∧
      (postChat st userId b).1.body.lookup "code" = some (.s "VALIDATION_ERROR") ∧
      (postChat st userId b).2 = st) ∧
    (goalAllowed (jsTrim b.goal) = true →
      1 ≤ (jsTrim b.message).length → (jsTrim b.message).length ≤ 1000 →
      b.conversationId = none →
      (postChat st userId b).1.status = 200) := by
  constructor
  · intro hg
    have hv : validateChatMessage b = false := by
      simp [validateChatMessage, hg]
    unfold postChat
    rw [hv, if_pos rfl]
    exact ⟨rfl, rfl, rfl⟩
  · intro hg h1 h2 hcid
    have hv : validateChatMessage b = true := by
      simp [validateChatMessage, hg, hcid, h1, h2]
    unfold postChat
    rw [hv, if_neg (by simp), hcid]
    rfl

theorem finishTurn_facts (st : AppState) (userId goal message : String)
    (found : Option Conversation) :
    (finishTurn st userId goal message found).1.status = 200 ∧
    (finishTurn st userId goal message found).1.body.lookup "aiProvider" = none ∧
    (finishTurn st userId goal message found).1.body.lookup "response" =
      some (.s (generateAIResponse message goal [])) :=
  ⟨rfl, rfl, rfl⟩

theorem messageTotal_replaceFirst_grow (p : Conversation → Bool)
    (x conv : Conversation) (l : List Conversation) (h : l.find? p = some conv)
    (hlen : x.messages.length = conv.messages.length + 2) :
    messageTotal (replaceFirst p x l) = messageTotal l + 2 := by
  have := messageTotal_replaceFirst p x conv l h
  omega

theorem finishTurn_messageTotal_new (st : AppState) (userId goal message : String) :
    messageTotal (finishTurn st userId goal message none).2.store
      = messageTotal st.store + 2 := by
  unfold finishTurn
  simp [messageTotal]

theorem finishTurn_messageTotal_existing (st : AppState)
    (userId goal message : String) (conv : Conversation)
    (h : st.store.find? (fun c => c.id = conv.id && c.userId = userId) = some conv) :
    messageTotal (finishTurn st userId goal message (some conv)).2.store
      = messageTotal st.store + 2 := by
  unfold finishTurn
  exact messageTotal_replaceFirst_grow _ _ conv st.store h (by simp)

/-- C1 (amended): POST `/chat` consults no AI provider at all — response
generation is a local placeholder that cannot fail — so every valid,
authorized turn succeeds with HTTP 200 no matter what any external
provider would do; the body is
`{response, conversationId, messageId, timestamp}` with **no**
`aiProvider` field, the reply is the canned goal-keyed text rather than a
fixed fallback message, and the user and assistant messages are persisted
(the stored message total grows by exactly 2). -/
theorem chat_turn_succeeds_without_providers (st : AppState) (userId : String)
    (b : ChatBody) (hval : validateChatMessage b = true)
    (hok : (postChat st userId b).1.status = 200) :
    (postChat st userId b).1.body.lookup "aiProvider" = none ∧
    (postChat st userId b).1.body.lookup "response" =
      some (.s (generateAIResponse (jsTrim b.message) (jsTrim b.goal) [])) ∧
    messageTotal (postChat st userId b).2.store = messageTotal st.store + 2 := by
  unfold postChat at hok ⊢
  rw [hval, if_neg (by simp)] at hok ⊢
  cases hcid : b.conversationId with
  | none =>
      exact ⟨(finishTurn_facts st userId (jsTrim b.goal) (jsTrim b.message) none).2.1,
             (finishTurn_facts st userId (jsTrim b.goal) (jsTrim b.message) none).2.2,
             finishTurn_messageTotal_new st userId (jsTrim b.goal) (jsTrim b.message)⟩
  | some cid =>
      rw [hcid] at hok
      simp only [resolveTurn] at hok ⊢
      by_cases hemp : cid = ""
      · rw [if_pos hemp] at hok ⊢
        exact ⟨(finishTurn_facts st userId (jsTrim b.goal) (jsTrim b.message) none).2.1,
               (finishTurn_facts st userId (jsTrim b.goal) (jsTrim b.message) none).2.2,
               finishTurn_messageTotal_new st userId (jsTrim b.goal) (jsTrim b.message)⟩
      · rw [if_neg hemp] at hok ⊢
        cases hfind : st.store.find? (fun c => c.id = cid && c.userId = userId) with
        | none =>
            rw [hfind] at hok
            exact absurd hok (by simp)
        | some conv =>
            have hp := List.find?_some hfind
            simp only [Bool.and_eq_true, decide_eq_true_eq] at hp
            have hfind' : st.store.find?
                (fun c => c.id = conv.id && c.userId = userId) = some conv := by
              rw [hp.1]; exact hfind
            exact ⟨(finishTurn_facts st userId (jsTrim b.goal) (jsTrim b.message)
                      (some conv)).2.1,
                   (finishTurn_facts st userId (jsTrim b.goal) (jsTrim b.message)
                      (some conv)).2.2,
                   finishTurn_messageTotal_existing st userId (jsTrim b.goal)
                      (jsTrim b.message) conv hfind'⟩

/-- C1 witness: the amended theorem instantiated on a concrete valid turn. -/
theorem chat_turn_succeeds_without_providers_witness :
    (postChat cexState "u1"
        { message := "I am feeling stressed today", goal := "emotional-support",
          conversationId := none }).1.body.lookup "aiProvider" = none ∧
    (postChat cexState "u1"
        { message := "I am feeling stressed today", goal := "emotional-support",
          conversationId := none }).1.body.lookup "response" =
      some (.s (generateAIResponse (jsTrim "I am feeling stressed today")
                  (jsTrim "emotional-support") [])) ∧
    messageTotal (postChat cexState "u1"
        { message := "I am feeling stressed today", goal := "emotional-support",
          conversationId := none }).2.store = messageTotal cexState.store + 2 :=
  chat_turn_succeeds_without_providers cexState "u1"
    { message := "I am feeling stressed today", goal := "emotional-support",
      conversationId := none } (by rfl) (by rfl)

/-- C8 witness: the amended theorem instantiated on the free-form goal
`gardening-tips` (rejected) and the enumerated goal `polite-greetings`
(accepted). -/
theorem only_enumerated_goals_accepted_witness :
    ((postChat cexState "u1" customGoalBody).1.status = 400 ∧
     (postChat cexState "u1" customGoalBody).1.body.lookup "code"
       = some (.s "VALIDATION_ERROR") ∧
     (postChat cexState "u1" customGoalBody).2 = cexState) ∧
    (postChat cexState "u1"
        { message := "Hello there", goal := "polite-greetings",
          conversationId := none }).1.status = 200 :=
  ⟨(only_enumerated_goals_accepted cexState "u1" customGoalBody).1 (by rfl),
   (only_enumerated_goals_accepted cexState "u1"
      { message := "Hello there", goal := "polite-greetings",
        conversationId := none }).2 (by rfl) (by decide) (by decide) rfl⟩

/-- C3: a valid POST `/chat` without a conversationId creates exactly one
new conversation holding exactly the two turn messages (role user then
role assistant); a valid POST naming an owned conversation rewrites
exactly that stored conversation, appending the user and assistant
messages after the previously stored ones, which stay unchanged and in
their original order — so the message count grows by exactly 2. -/
theorem chat_turn_appends_exactly_two_messages (st : AppState) (userId : String)
    (b : ChatBody) (hval : validateChatMessage b = true) :
    (b.conversationId = none →
      (postChat st userId b).2.store = st.store ++
        [{ id := freshConvId st.nextId, userId := userId, goal := jsTrim b.goal,
           messages :=
             [{ id := st.nextId + 1, role := "user", content := jsTrim b.message,
                timestamp := st.now },
              { id := st.nextId + 2, role := "assistant",
                content := generateAIResponse (jsTrim b.message) (jsTrim b.goal) [],
                timestamp := st.now }],
           createdAt := st.now }]) ∧
    (∀ cid conv, b.conversationId = some cid →
      st.store.find? (fun c => c.id = cid && c.userId = userId) = some conv →
      (postChat st userId b).2.store =
        replaceFirst (fun c => c.id = conv.id && c.userId = userId)
          { conv with messages := conv.messages ++
              [{ id := st.nextId + 1, role := "user", content := jsTrim b.message,
                 timestamp := st.now },
               { id := st.nextId + 2, role := "assistant",
                 content := generateAIResponse (jsTrim b.message) (jsTrim b.goal) [],
                 timestamp := st.now }] } st.store) := by
  constructor
  · intro hcid
    unfold postChat
    rw [hval, if_neg (by simp), hcid]
    rfl
  · intro cid conv hcid hfind
    have hmid : isMongoId cid = true := by
      have hv := hval
      unfold validateChatMessage at hv
      rw [hcid] at hv
      simp only [Bool.and_eq_true] at hv
      exact hv.2
    have hne : ¬ (cid = "") := by
      intro hq
      rw [hq] at hmid
      exact absurd hmid (by decide)
    unfold postChat
    rw [hval, if_neg (by simp), hcid]
    simp only [resolveTurn]
    rw [if_neg hne, hfind]
    unfold finishTurn
    simp [List.append_assoc, generateAIResponse]

/-- C3 witness: the second turn of the shared scenario, fully evaluated. -/
theorem chat_turn_appends_exactly_two_messages_witness :
    (postChat cexState "u1" cexTurnBody).2.store =
      replaceFirst (fun c => c.id = cexConv.id && c.userId = "u1")
        { cexConv with messages := cexConv.messages ++
            [{ id := 3, role := "user", content := "Thank you, that helped",
               timestamp := 10 },
             { id := 4, role := "assistant",
               content := generateAIResponse "Thank you, that helped" "stress-relief" [],
               timestamp := 10 }] } cexState.store :=
  (chat_turn_appends_exactly_two_messages cexState "u1" cexTurnBody (by rfl)).2
    cexConvId cexConv rfl (by rfl)

/-- C5 (amended): a served list page reports each item as a summary of one
of the owner's stored conversations (its message count and last message,
never the full history), keeps the items in store order — a sublist of the
owner's conversations; the claimed last-update-descending order does not
hold because the schema stores no `updatedAt` — and computes the
pagination flags consistently: `hasNext` iff `page·limit < total`,
`hasPrev` iff `page > 1`, with `total` the owner's conversation count. -/
theorem list_summaries_and_pagination (store : List Conversation) (userId : String)
    (pageRaw limitRaw : Option Int) (r : ListOk)
    (h : listConversations store userId pageRaw limitRaw = some r) :
    (∀ s ∈ r.conversations, ∃ c, c ∈ store ∧ c.userId = userId ∧ s = summarize c) ∧
    List.Sublist (r.conversations.map ConvSummary.id)
      ((store.filter (fun c => c.userId = userId)).map Conversation.id) ∧
    r.pagination.total = (store.filter (fun c => c.userId = userId)).length ∧
    r.pagination.hasNext
      = decide (r.pagination.page * r.pagination.limit < (r.pagination.total : Int)) ∧
    r.pagination.hasPrev = decide (1 < r.pagination.page) := by
  simp only [listConversations] at h
  split at h
  · exact absurd h (by simp)
  · injection h with h
    subst h
    refine ⟨?_, ?_, rfl, rfl, rfl⟩
    · intro s hs
      rw [List.mem_map] at hs
      obtain ⟨c, hc, rfl⟩ := hs
      have hc' : c ∈ store.filter (fun c => c.userId = userId) :=
        List.mem_of_mem_drop (List.mem_of_mem_take hc)
      have hm := List.mem_filter.mp hc'
      exact ⟨c, hm.1, by simpa using hm.2, rfl⟩
    · rw [List.map_map]
      have hsub : List.Sublist
          (((store.filter (fun c => c.userId = userId)).drop
              ((jsParseIntOr pageRaw 1 - 1) * jsParseIntOr limitRaw 10).toNat).take
            (jsParseIntOr limitRaw 10).toNat)
          (store.filter (fun c => c.userId = userId)) :=
        (List.take_sublist _ _).trans (List.drop_sublist _ _)
      have hmap := hsub.map Conversation.id
      simpa [Function.comp, summarize] using hmap

/-- The value GET `/chat` computes for the two-conversation store with
default pagination. -/
def c5Rec : ListOk :=
  { conversations := [summarize c5ConvA, summarize c5ConvB],
    pagination := { page := 1, limit := 10, total := 2, totalPages := 1,
                    hasNext := false, hasPrev := false } }

/-- C5 witness: the amended theorem instantiated on the concrete
two-conversation store. -/
theorem list_summaries_and_pagination_witness :
    List.Sublist (c5Rec.conversations.map ConvSummary.id)
      ((c5Store.filter (fun c => c.userId = "u1")).map Conversation.id) ∧
    c5Rec.pagination.total = (c5Store.filter (fun c => c.userId = "u1")).length ∧
    c5Rec.pagination.hasNext
      = decide (c5Rec.pagination.page * c5Rec.pagination.limit
          < (c5Rec.pagination.total : Int)) ∧
    c5Rec.pagination.hasPrev = decide (1 < c5Rec.pagination.page) := by
  have h := list_summaries_and_pagination c5Store "u1" none none c5Rec (by rfl)
  exact ⟨h.2.1, h.2.2.1, h.2.2.2.1, h.2.2.2.2⟩

theorem listConversations_eq_none_iff (store : List Conversation) (userId : String)
    (pageRaw limitRaw : Option Int) :
    listConversations store userId pageRaw limitRaw = none ↔
      (jsParseIntOr pageRaw 1 < 1 ∨ jsParseIntOr limitRaw 10 < 1 ∨
        50 < jsParseIntOr limitRaw 10) := by
  simp only [listConversations]
  split
  · rename_i hcond
    simp only [Bool.or_eq_true, decide_eq_true_eq] at hcond
    constructor
    · intro _
      omega
    · intro _
      rfl
  · rename_i hcond
    simp only [Bool.or_eq_true, decide_eq_true_eq] at hcond
    constructor
    · intro h
      simp at h
    · intro hr
      omega

/-- C6 (amended): GET `/chat` answers 400 `INVALID_PAGINATION` exactly for
a parsed page that is negative, or a parsed limit that is negative or
above 50.  A requested page or limit of 0 — although outside the claimed
valid ranges — is *not* rejected: `parseInt(x) || default` treats 0 as
falsy, substitutes page 1 / limit 10, and the request is served. -/
theorem pagination_rejection_characterization (store : List Conversation)
    (userId : String) (pageRaw limitRaw : Option Int) :
    listConversations store userId pageRaw limitRaw = none ↔
      ((∃ v, pageRaw = some v ∧ v < 0) ∨
       (∃ v, limitRaw = some v ∧ (v < 0 ∨ 50 < v))) := by
  rw [listConversations_eq_none_iff]
  rcases pageRaw with _ | v <;> rcases limitRaw with _ | w <;>
      simp [jsParseIntOr] <;> (try split_ifs) <;> omega

theorem lookupCount_bump (users : List SUser) (callerId uid : String) :
    lookupCount (users.map (fun u =>
        if u.id = callerId then { u with conversationCount := u.conversationCount + 1 }
        else u)) uid
      = if uid = callerId then (lookupCount users uid).map (· + 1)
        else lookupCount users uid := by
  induction users with
  | nil => simp [lookupCount]
  | cons u us ih =>
      have hfid : ((if u.id = callerId
          then { u with conversationCount := u.conversationCount + 1 }
          else u) : SUser).id = u.id := by
        split <;> rfl
      by_cases hid : u.id = uid
      · rw [List.map_cons]
        unfold lookupCount
        rw [List.find?_cons_of_pos _ (by split <;> simp [hid]),
            List.find?_cons_of_pos _ (by simp [hid])]
        by_cases hu : u.id = callerId
        · have huc : uid = callerId := hid ▸ hu
          simp [hu, huc]
        · have huc : ¬ uid = callerId := by
            intro hq
            exact hu (hid.trans hq)
          simp [hu, huc]
      · rw [List.map_cons]
        unfold lookupCount
        rw [List.find?_cons_of_neg _ (by split <;> simp [hid]),
            List.find?_cons_of_neg _ (by simp [hid])]
        exact ih

theorem lookupCount_append (users extra : List SUser) (uid : String) (n : Nat)
    (h : lookupCount users uid = some n) :
    lookupCount (users ++ extra) uid = some n := by
  unfold lookupCount at h ⊢
  cases hf : users.find? (fun u => u.id = uid) with
  | none => rw [hf] at h; simp at h
  | some u =>
      rw [hf] at h
      rw [List.find?_append, hf]
      simpa using h

/-- C7: the per-user conversation counter is monotonic and exact: a
`/api/chat` turn bumps the caller's counter by exactly 1 precisely when it
creates a new conversation (valid body, known caller, no stored
conversation under the supplied id) and leaves every counter unchanged
otherwise — in particular a turn on an existing conversation changes
nothing and no counter ever decreases; registration never lowers an
existing user's counter either. -/
theorem conversation_counter_monotonic (st : SState) (callerId : String)
    (b : SChatBody) (rand : Nat) (newId email : String) (valid : Bool)
    (uid : String) :
    (lookupCount (postApiChat st callerId b rand).2.users uid =
      if uid = callerId ∧ chatCreates st callerId b = true then
        (lookupCount st.users uid).map (· + 1)
      else lookupCount st.users uid) ∧
    (∀ n, lookupCount st.users uid = some n →
      ∃ n', lookupCount (registerUser st newId email valid).users uid = some n'
        ∧ n ≤ n') := by
  constructor
  · cases htru : (jsTruthyStr b.message && jsTruthyStr b.goal) with
    | false =>
        have hcr : chatCreates st callerId b = false := by
          simp [chatCreates, htru]
        have hpost : (postApiChat st callerId b rand).2 = st := by
          unfold postApiChat
          rw [htru]
          rfl
        rw [hpost, hcr]
        simp
    | true =>
        cases hu : st.users.find? (fun u => u.id = callerId) with
        | none =>
            have hcr : chatCreates st callerId b = false := by
              simp [chatCreates, htru, hu]
            have hpost : (postApiChat st callerId b rand).2 = st := by
              unfold postApiChat
              rw [htru, if_neg (by simp), hu]
            rw [hpost, hcr]
            simp
        | some user =>
            cases hcid : b.conversationId with
            | none =>
                have hcr : chatCreates st callerId b = true := by
                  simp [chatCreates, htru, hu, hcid]
                have hpost : (postApiChat st callerId b rand).2.users
                    = st.users.map (fun u =>
                        if u.id = callerId then
                          { u with conversationCount := u.conversationCount + 1 }
                        else u) := by
                  unfold postApiChat
                  rw [htru, if_neg (by simp), hu]
                  simp only [hcid]
                  rfl
                rw [hpost, lookupCount_bump, hcr]
                simp
            | some cid =>
                cases hfc : st.conversations.find? (fun c => c.id = cid) with
                | none =>
                    have hcr : chatCreates st callerId b = true := by
                      simp [chatCreates, htru, hu, hcid, hfc]
                    have hpost : (postApiChat st callerId b rand).2.users
                        = st.users.map (fun u =>
                            if u.id = callerId then
                              { u with conversationCount := u.conversationCount + 1 }
                            else u) := by
                      unfold postApiChat
                      rw [htru, if_neg (by simp), hu]
                      simp only [hcid]
                      rw [hfc]
                      rfl
                    rw [hpost, lookupCount_bump, hcr]
                    simp
                | some conv0 =>
                    have hcr : chatCreates st callerId b = false := by
                      simp [chatCreates, htru, hu, hcid, hfc]
                    have hpost : (postApiChat st callerId b rand).2.users
                        = st.users := by
                      unfold postApiChat
                      rw [htru, if_neg (by simp), hu]
                      simp only [hcid]
                      rw [hfc]
                      rfl
                    rw [hpost, hcr]
                    simp
  · intro n hn
    cases valid with
    | false => exact ⟨n, hn, Nat.le_refl n⟩
    | true =>
        cases hex : st.users.find? (fun u => u.email = email) with
        | some u0 =>
            refine ⟨n, ?_, Nat.le_refl n⟩
            have hreg : (registerUser st newId email true).users = st.users := by
              simp [registerUser, hex]
            rw [hreg]
            exact hn
        | none =>
            refine ⟨n, ?_, Nat.le_refl n⟩
            have hreg : (registerUser st newId email true).users
                = st.users ++ [{ id := newId, email := email, conversationCount := 0 }] := by
              simp [registerUser, hex]
            rw [hreg]
            exact lookupCount_append st.users _ uid n hn

/-- A one-user in-memory server state. -/
def c7State : SState :=
  { users := [{ id := "u1", email := "a@b.c", conversationCount := 0 }],
    conversations := [], now := 5 }

/-- A valid `/api/chat` body with no conversation id. -/
def c7Body : SChatBody :=
  { message := some "hello", goal := some "emotional-support", tone := none,
    conversationId := none }

/-- C7 witness: a concrete creating turn and a concrete registration. -/
theorem conversation_counter_monotonic_witness :
    (lookupCount (postApiChat c7State "u1" c7Body 0).2.users "u1" =
      if ("u1" = "u1" ∧ chatCreates c7State "u1" c7Body = true) then
        (lookupCount c7State.users "u1").map (· + 1)
      else lookupCount c7State.users "u1") ∧
    (∃ n', lookupCount (registerUser c7State "u2" "d@e.f" true).users "u1"
        = some n' ∧ 0 ≤ n') :=
  ⟨(conversation_counter_monotonic c7State "u1" c7Body 0 "u2" "d@e.f" true "u1").1,
   (conversation_counter_monotonic c7State "u1" c7Body 0 "u2" "d@e.f" true "u1").2
     0 (by rfl)⟩
